import Mathlib

/-!
Shallow embedding of the KASPACOM/ai-agent registries and orchestrator
(deprecated python_agno_version): the action manager
(`src/actions/action_manager.py`), the task manager
(`src/tasks/task_manager.py`) and the orchestrator (`src/orchestrator.py`).

Modelling conventions:
* Wall-clock time (`datetime.now()`) is a `Nat` counter threaded through the
  operations; each call to `now()` yields the current counter value and the
  operation returns the bumped counter, so time is monotone.
* Python dicts that preserve insertion order (`self.actions`, `self.tasks`)
  are association lists `List (String × _)`; `self.session_data` is a
  function `String → Option Session`.
* Outcomes of awaited external calls (network requests, `psutil`) are an
  oracle argument of type `Except String String`: `.error e` models the call
  raising an exception rendered as `e`, `.ok s` models it returning data
  rendered abstractly as the string `s`.  Provider-response payloads are
  abstracted to strings; the control flow around them is modelled exactly.
* A Python method that can raise to its caller returns `Except String _`;
  methods that catch every exception return plain values.
-/

namespace AiAgent

/-- Parameter dictionaries passed to actions (`params: Dict[str, Any]`). -/
abbrev Params := List (String × String)

/-- `params.get(k, "")`: lookup with the empty-string default.  Python's
`if not x` on the fetched value is `pget ps k = ""`, which also covers an
absent key. -/
def pget (ps : Params) (k : String) : String := ((ps.lookup k).getD "")

/-- The result dictionaries produced by actions and by
`ActionManager.execute`; fields that a given dictionary omits are `none`. -/
structure ExecResult where
  action_id : String
  status : String
  error : Option String
  executed_at : Option Nat
  result : Option String
deriving DecidableEq

/-- The `{action_id, status: "error", error: msg}` dictionaries. -/
def errResult (id msg : String) : ExecResult :=
  { action_id := id, status := "error", error := some msg,
    executed_at := none, result := none }

/-- Which concrete `Action` subclass an action object belongs to. -/
inductive ActionKind where
  | base
  | webSearch
  | httpRequest
  | weather
  | time
  | systemInfo
deriving DecidableEq

/-- The `Action` object state (`action_manager.py`, class `Action`). -/
structure Action where
  action_id : String
  name : String
  description : String
  action_type : String
  enabled : Bool
  created_at : Nat
  execution_count : Nat
  last_execution : Option Nat
  kind : ActionKind
deriving DecidableEq

/-- `Action.execute` of the base class: bump `execution_count`, stamp
`last_execution` with `now()`, return the fixed completed dictionary. -/
def Action.executeBase (a : Action) (clk : Nat) : ExecResult × Action × Nat :=
  let a1 : Action :=
    { a with execution_count := a.execution_count + 1, last_execution := some clk }
  ({ action_id := a.action_id, status := "completed", error := none,
     executed_at := some clk, result := some "Action executed successfully" },
   a1, clk + 1)

/-- Body of `WebSearchAction.execute` after the `super().execute` call:
validate `query`, then perform the network call (oracle), catching failures. -/
def webSearchBody (a1 : Action) (ps : Params) (net : Except String String) :
    ExecResult :=
  if pget ps "query" = "" then
    errResult a1.action_id "Query parameter is required"
  else
    match net with
    | Except.error e => errResult a1.action_id ("Web search failed: " ++ e)
    | Except.ok data =>
        { action_id := a1.action_id, status := "completed", error := none,
          executed_at := a1.last_execution, result := some data }

/-- Body of `HttpRequestAction.execute` after the `super().execute` call:
`if not params`, then `if not url`, then the network call with its catch. -/
def httpRequestBody (a1 : Action) (ps : Params) (net : Except String String) :
    ExecResult :=
  if ps = [] then
    errResult a1.action_id "Parameters are required"
  else if pget ps "url" = "" then
    errResult a1.action_id "URL parameter is required"
  else
    match net with
    | Except.error e => errResult a1.action_id ("HTTP request failed: " ++ e)
    | Except.ok data =>
        { action_id := a1.action_id, status := "completed", error := none,
          executed_at := a1.last_execution, result := some data }

/-- Body of `WeatherAction.execute` after the `super().execute` call. -/
def weatherBody (a1 : Action) (ps : Params) (net : Except String String) :
    ExecResult :=
  if pget ps "location" = "" then
    errResult a1.action_id "Location parameter is required"
  else
    match net with
    | Except.error e => errResult a1.action_id ("Weather lookup failed: " ++ e)
    | Except.ok data =>
        { action_id := a1.action_id, status := "completed", error := none,
          executed_at := a1.last_execution, result := some data }

/-- Dynamic dispatch of `action.execute(params)`.  Every subclass first runs
`await super().execute(params)` (bumping the counter and the timestamp) and
then its own body.  `SystemInfoAction` has no local `try`, so a failure of its
external calls propagates to the caller (`Except.error`); all other variants
either cannot fail or catch locally. -/
def Action.execute (a : Action) (ps : Params) (clk : Nat)
    (net : Except String String) : Except String ExecResult × Action × Nat :=
  let b := a.executeBase clk
  (match a.kind with
   | ActionKind.base => Except.ok b.1
   | ActionKind.webSearch => Except.ok (webSearchBody b.2.1 ps net)
   | ActionKind.httpRequest => Except.ok (httpRequestBody b.2.1 ps net)
   | ActionKind.weather => Except.ok (weatherBody b.2.1 ps net)
   | ActionKind.time =>
       Except.ok { action_id := b.2.1.action_id, status := "completed",
                   error := none, executed_at := b.2.1.last_execution,
                   result := some "current time and date" }
   | ActionKind.systemInfo =>
       match net with
       | Except.error e => Except.error e
       | Except.ok data =>
           Except.ok { action_id := b.2.1.action_id, status := "completed",
                       error := none, executed_at := b.2.1.last_execution,
                       result := some data },
   b.2.1, b.2.2)

/-- The `ActionManager` registry state: the insertion-ordered dict
`self.actions` as an association list keyed by `action_id`. -/
structure ActionManager where
  actions : List (String × Action)
deriving DecidableEq

/-- `ActionManager.register_action`: reject a duplicate id, otherwise insert
at the end of the dict. -/
def ActionManager.register_action (m : ActionManager) (a : Action) :
    Bool × ActionManager :=
  if (m.actions.lookup a.action_id).isSome then (false, m)
  else (true, { actions := m.actions ++ [(a.action_id, a)] })

/-- `ActionManager.unregister_action`: `pop` the key if present. -/
def ActionManager.unregister_action (m : ActionManager) (id : String) :
    Bool × ActionManager :=
  if (m.actions.lookup id).isSome then
    (true, { actions := m.actions.filter (fun p => p.1 != id) })
  else (false, m)

/-- `ActionManager.execute`: unknown id and disabled action fail closed with
an error dictionary; otherwise delegate to the action's own `execute`, and
catch an exception it raises into an error dictionary (the in-place mutation
of the action object made before the raise persists). -/
def ActionManager.execute (m : ActionManager) (id : String) (ps : Params)
    (clk : Nat) (net : Except String String) :
    ExecResult × ActionManager × Nat :=
  match m.actions.lookup id with
  | none => (errResult id ("Action " ++ id ++ " not found"), m, clk)
  | some a =>
      if a.enabled = false then
        (errResult id ("Action " ++ id ++ " is disabled"), m, clk)
      else
        let (r, a1, c1) := a.execute ps clk net
        let m1 : ActionManager :=
          { actions := m.actions.map (fun p => if p.1 = id then (p.1, a1) else p) }
        match r with
        | Except.ok res => (res, m1, c1)
        | Except.error e => (errResult id e, m1, c1)

/-- One descriptor record of `ActionManager.list_actions`. -/
structure ActionInfo where
  action_id : String
  name : String
  description : String
  type : String
  enabled : Bool
  execution_count : Nat
  last_execution : Option Nat
deriving DecidableEq

/-- `ActionManager.list_actions`: a snapshot descriptor per dict value. -/
def ActionManager.list_actions (m : ActionManager) : List ActionInfo :=
  m.actions.map (fun p =>
    { action_id := p.2.action_id, name := p.2.name,
      description := p.2.description, type := p.2.action_type,
      enabled := p.2.enabled, execution_count := p.2.execution_count,
      last_execution := p.2.last_execution })

/-- Well-formedness of a registry state: keys are distinct and each entry is
keyed by its own id.  Every state reachable through `register_action` /
`unregister_action` from the empty registry satisfies this (it is how a
Python dict keyed by `action.action_id` always looks). -/
def ActionManager.WF (m : ActionManager) : Prop :=
  (m.actions.map Prod.fst).Nodup ∧ ∀ p ∈ m.actions, p.1 = p.2.action_id

/-- Constructor call of a concrete `Action` subclass at time `clk`. -/
def defaultAction (id nm descr ty : String) (k : ActionKind) (clk : Nat) :
    Action :=
  { action_id := id, name := nm, description := descr, action_type := ty,
    enabled := true, created_at := clk, execution_count := 0,
    last_execution := none, kind := k }

/-- `ActionManager.__init__`: the registry after
`_register_default_actions` registered the five default actions. -/
def ActionManager.init (clk : Nat) : ActionManager :=
  { actions :=
      [("web_search",
        defaultAction "web_search" "Web Search"
          "Perform web searches using DuckDuckGo" "api" ActionKind.webSearch clk),
       ("http_request",
        defaultAction "http_request" "HTTP Request"
          "Make HTTP requests to external APIs" "api" ActionKind.httpRequest clk),
       ("weather",
        defaultAction "weather" "Weather Info"
          "Get weather information for a location" "api" ActionKind.weather clk),
       ("time",
        defaultAction "time" "Time & Date"
          "Get current time and date information" "function" ActionKind.time clk),
       ("system_info",
        defaultAction "system_info" "System Info"
          "Get basic system information" "function" ActionKind.systemInfo clk)] }

/-- `pat` occurs as a contiguous substring of `s`. -/
def strHasSub (s pat : String) : Prop :=
  ∃ l r, s.data = l ++ pat.data ++ r

/-- Which concrete `Task` subclass a task object belongs to. -/
inductive TaskKind where
  | base
  | healthCheck
  | notif
deriving DecidableEq

/-- The `Task` object state (`task_manager.py`, class `Task`). -/
structure Task where
  task_id : String
  name : String
  description : String
  schedule : Option String
  enabled : Bool
  created_at : Nat
  last_run : Option Nat
  run_count : Nat
  status : String
  kind : TaskKind
deriving DecidableEq

/-- The result dictionaries produced by tasks and by
`TaskManager.execute_task`; omitted fields are `none`. -/
structure TaskResult where
  task_id : String
  status : String
  executed_at : Option Nat
  result : Option String
  error : Option String
deriving DecidableEq

/-- Dynamic dispatch of `task.execute(orchestrator)`.  `orch` is the
orchestrator reference handed over by the task manager: `none` when the
reference is absent, `some hasTg` when present, with `hasTg` recording
whether `orchestrator.telegram` is set.  Every subclass first runs
`await super().execute(orchestrator)`, which stamps `last_run`, bumps
`run_count` and sets `status` to `"completed"`; health-check and telegram
payloads are abstracted to fixed strings. -/
def Task.execute (t : Task) (orch : Option Bool) (clk : Nat) :
    TaskResult × Task × Nat :=
  let t1 : Task :=
    { t with last_run := some clk, run_count := t.run_count + 1,
             status := "completed" }
  (match t.kind with
   | TaskKind.base =>
       { task_id := t.task_id, status := "completed", executed_at := some clk,
         result := some "Task executed successfully", error := none }
   | TaskKind.healthCheck =>
       match orch with
       | some _ =>
           { task_id := t.task_id, status := "completed",
             executed_at := some clk, result := some "health payload",
             error := none }
       | none =>
           { task_id := t.task_id, status := "completed",
             executed_at := some clk,
             result := some "Health check completed (no orchestrator)",
             error := none }
   | TaskKind.notif =>
       match orch with
       | some true =>
           { task_id := t.task_id, status := "completed",
             executed_at := some clk, result := some "Notification sent",
             error := none }
       | _ =>
           { task_id := t.task_id, status := "error", executed_at := some clk,
             result := some "No telegram integration available",
             error := none },
   t1, clk + 1)

/-- The `TaskManager` state: orchestrator back-reference (modelled as in
`Task.execute`), the insertion-ordered task dict, and the running flag.  The
background `task_loop` handle stays `None` in the source (the loop creation
is commented out), so it is not part of the state. -/
structure TaskManager where
  orchestrator : Option Bool
  tasks : List (String × Task)
  is_running : Bool
deriving DecidableEq

/-- `TaskManager.start`: warn-and-return when already running, otherwise set
the running flag (the background loop is never created). -/
def TaskManager.start (m : TaskManager) : TaskManager :=
  if m.is_running then m else { m with is_running := true }

/-- `TaskManager.stop`: return when not running, otherwise clear the running
flag (there is no loop to cancel). -/
def TaskManager.stop (m : TaskManager) : TaskManager :=
  if m.is_running = false then m else { m with is_running := false }

/-- `TaskManager.add_task`: reject a duplicate id, otherwise insert at the
end of the dict. -/
def TaskManager.add_task (m : TaskManager) (t : Task) : Bool × TaskManager :=
  if (m.tasks.lookup t.task_id).isSome then (false, m)
  else (true, { m with tasks := m.tasks ++ [(t.task_id, t)] })

/-- `TaskManager.remove_task`: `pop` the key if present. -/
def TaskManager.remove_task (m : TaskManager) (id : String) :
    Bool × TaskManager :=
  if (m.tasks.lookup id).isSome then
    (true, { m with tasks := m.tasks.filter (fun p => p.1 != id) })
  else (false, m)

/-- `TaskManager.execute_task`: unknown id returns `None`; a disabled task
also returns `None` (lines 122-124 of `task_manager.py`); otherwise the task
executes with the manager's orchestrator reference. -/
def TaskManager.execute_task (m : TaskManager) (id : String) (clk : Nat) :
    Option TaskResult × TaskManager × Nat :=
  match m.tasks.lookup id with
  | none => (none, m, clk)
  | some t =>
      if t.enabled = false then (none, m, clk)
      else
        let (r, t1, c1) := t.execute m.orchestrator clk
        (some r,
         { m with tasks := m.tasks.map (fun p => if p.1 = id then (p.1, t1) else p) },
         c1)

/-- One record of `TaskManager.get_task_status`. -/
structure TaskInfo where
  task_id : String
  name : String
  description : String
  enabled : Bool
  status : String
  created_at : Nat
  last_run : Option Nat
  run_count : Nat
deriving DecidableEq

/-- The status record built from a task object. -/
def Task.info (t : Task) : TaskInfo :=
  { task_id := t.task_id, name := t.name, description := t.description,
    enabled := t.enabled, status := t.status, created_at := t.created_at,
    last_run := t.last_run, run_count := t.run_count }

/-- `TaskManager.get_task_status`: `None` for an unknown id. -/
def TaskManager.get_task_status (m : TaskManager) (id : String) :
    Option TaskInfo :=
  (m.tasks.lookup id).map Task.info

/-- `TaskManager.list_tasks`: the status of every key of the dict. -/
def TaskManager.list_tasks (m : TaskManager) : List (Option TaskInfo) :=
  m.tasks.map (fun p => m.get_task_status p.1)

/-- `TaskManager.enable_task`: `False` for an unknown id, otherwise set the
entry's flag. -/
def TaskManager.enable_task (m : TaskManager) (id : String) :
    Bool × TaskManager :=
  if (m.tasks.lookup id).isSome then
    (true,
     { m with tasks := m.tasks.map (fun p =>
         if p.1 = id then (p.1, { p.2 with enabled := true }) else p) })
  else (false, m)

/-- `TaskManager.disable_task`: `False` for an unknown id, otherwise clear
the entry's flag. -/
def TaskManager.disable_task (m : TaskManager) (id : String) :
    Bool × TaskManager :=
  if (m.tasks.lookup id).isSome then
    (true,
     { m with tasks := m.tasks.map (fun p =>
         if p.1 = id then (p.1, { p.2 with enabled := false }) else p) })
  else (false, m)

/-- Well-formedness of a task registry state, as for the action registry. -/
def TaskManager.WF (m : TaskManager) : Prop :=
  (m.tasks.map Prod.fst).Nodup ∧ ∀ p ∈ m.tasks, p.1 = p.2.task_id

/-- The `TelegramListener` object state
(`integrations/telegram_listener.py`, class `TelegramListener`): the
orchestrator back-reference, whether the bot `application` has been built
(`None` until `start`), the running flag, and the bot token captured by the
constructor. -/
structure TGListener where
  orchestrator : Bool
  application : Bool
  is_running : Bool
  bot_token : String
deriving DecidableEq

/-- `TelegramListener.__init__`: reads `TELEGRAM_BOT_TOKEN` from the
environment and raises `ValueError` when it is absent or empty (`if not
self.bot_token`); otherwise the listener starts with no application and the
running flag clear. -/
def TGListener.init (orch : Bool) (botToken : Option String) :
    Except String TGListener :=
  match botToken with
  | none => Except.error "TELEGRAM_BOT_TOKEN environment variable is required"
  | some tok =>
      if tok = "" then
        Except.error "TELEGRAM_BOT_TOKEN environment variable is required"
      else
        Except.ok { orchestrator := orch, application := false,
                    is_running := false, bot_token := tok }

/-- `TelegramListener.start`: warn-and-return when already running;
otherwise build the application (local construction from the token), then
await the initialize/start/start_polling sequence, whose outcome is the
oracle `net`.  A failure there is logged and re-raised, leaving
`application` set and the running flag clear; success sets the running
flag. -/
def TGListener.start (tg : TGListener) (net : Except String Unit) :
    Except String Unit × TGListener :=
  if tg.is_running then (Except.ok (), tg)
  else
    match net with
    | Except.error e => (Except.error e, { tg with application := true })
    | Except.ok _ =>
        (Except.ok (), { tg with application := true, is_running := true })

/-- `TelegramListener.stop`: return when not running; otherwise await the
application teardown when an application exists (oracle `net`) and then
clear the running flag.  An exception from the teardown is swallowed
(logged, not re-raised) and skips the `is_running = False` assignment. -/
def TGListener.stop (tg : TGListener) (net : Except String Unit) :
    TGListener :=
  if tg.is_running = false then tg
  else
    if tg.application then
      match net with
      | Except.error _ => tg
      | Except.ok _ => { tg with is_running := false }
    else { tg with is_running := false }

/-- A per-user+chat session record of `self.session_data`.  The source
stores the literal string `"now"` as `created_at` (orchestrator.py line
127). -/
structure Session where
  user_id : String
  chat_id : String
  message_count : Nat
  created_at : String
  last_message : Option String
  last_response : Option String
deriving DecidableEq

/-- The `Orchestrator` state: the four component slots (all `None` until
`initialize`), the running flag, and the session dict. -/
structure Orchestrator where
  agent : Bool
  telegram : Option TGListener
  task_manager : Option TaskManager
  action_manager : Option ActionManager
  is_running : Bool
  session_data : String → Option Session

/-- `Orchestrator.initialize`: construct the agent (which raises when
`OPENAI_API_KEY` is absent — `base_agent.py` re-raises from
`_initialize_agent`; nothing is assigned then), then the action manager
with its default actions and a `TaskManager()` without an orchestrator
reference, and finally the listener, whose constructor raises when
`TELEGRAM_BOT_TOKEN` is absent — in that case the agent and the two
managers stay assigned (in-place mutation) while `telegram` stays `None`,
and the exception re-raises. -/
def Orchestrator.initialize (st : Orchestrator) (hasApiKey : Bool)
    (botToken : Option String) (clk : Nat) :
    Except String Unit × Orchestrator :=
  if hasApiKey = false then
    (Except.error "OPENAI_API_KEY environment variable is required", st)
  else
    let st1 : Orchestrator :=
      { st with agent := true,
                action_manager := some (ActionManager.init clk),
                task_manager :=
                  some { orchestrator := none, tasks := [],
                         is_running := false } }
    match TGListener.init true botToken with
    | Except.error e => (Except.error e, st1)
    | Except.ok tg => (Except.ok (), { st1 with telegram := some tg })

/-- `Orchestrator.start`: warn-and-return when already running; otherwise
initialize if the agent slot is empty, set the running flag, start the
listener (whose startup can raise — oracle `tgNet`) and then the task
manager; any exception clears the running flag and re-raises, with the
partial mutations made so far persisting.  A missing component on a
non-initialized path raises an attribute error on the `None` slot. -/
def Orchestrator.start (st : Orchestrator) (hasApiKey : Bool)
    (botToken : Option String) (clk : Nat) (tgNet : Except String Unit) :
    Except String Unit × Orchestrator :=
  if st.is_running then (Except.ok (), st)
  else
    match (if st.agent = false then st.initialize hasApiKey botToken clk
           else (Except.ok (), st)) with
    | (Except.error e, st1) => (Except.error e, { st1 with is_running := false })
    | (Except.ok _, st1) =>
        let st2 : Orchestrator := { st1 with is_running := true }
        match st2.telegram with
        | none =>
            (Except.error "'NoneType' object has no attribute 'start'",
             { st2 with is_running := false })
        | some tg =>
            match tg.start tgNet with
            | (Except.error e, tg1) =>
                (Except.error e,
                 { st2 with telegram := some tg1, is_running := false })
            | (Except.ok _, tg1) =>
                let st3 : Orchestrator := { st2 with telegram := some tg1 }
                match st3.task_manager with
                | none =>
                    (Except.error "'NoneType' object has no attribute 'start'",
                     { st3 with is_running := false })
                | some tm =>
                    (Except.ok (), { st3 with task_manager := some tm.start })

/-- `Orchestrator.stop`: return when not running; otherwise clear the
running flag, stop the listener if constructed (the listener's own stop
swallows teardown failures — oracle `tgNet`), then the task manager if
constructed. -/
def Orchestrator.stop (st : Orchestrator) (tgNet : Except String Unit) :
    Orchestrator :=
  if st.is_running = false then st
  else
    let st1 : Orchestrator := { st with is_running := false }
    let st2 : Orchestrator :=
      match st1.telegram with
      | none => st1
      | some tg => { st1 with telegram := some (tg.stop tgNet) }
    match st2.task_manager with
    | none => st2
    | some tm => { st2 with task_manager := some tm.stop }

/-- The fixed apology text prepended to the rendered fault by
`Orchestrator.handle_message`'s `except` branch. -/
def apologyMsg : String :=
  "I apologize, but I encountered an error processing your message: "

/-- `Orchestrator.handle_message`: create the session record lazily, bump
its counter, record the message, then run the agent.  `agentResult` is the
oracle for `await self.agent.process_message(message)`: `.ok r` models it
returning the reply `r`, `.error e` models a fault raised anywhere in the
agent-processing step, rendered as `e`.  A fault is caught and turned into
the apology string; the session-dict mutations already made persist. -/
def Orchestrator.handle_message (st : Orchestrator)
    (message user_id chat_id : String) (agentResult : Except String String) :
    String × Orchestrator :=
  let key := user_id ++ "_" ++ chat_id
  let base : Session :=
    match st.session_data key with
    | some s => s
    | none =>
        { user_id := user_id, chat_id := chat_id, message_count := 0,
          created_at := "now", last_message := none, last_response := none }
  let s1 : Session :=
    { base with message_count := base.message_count + 1,
                last_message := some message }
  match agentResult with
  | Except.error e =>
      (apologyMsg ++ e,
       { st with session_data :=
           fun k => if k = key then some s1 else st.session_data k })
  | Except.ok resp =>
      let s2 : Session := { s1 with last_response := some resp }
      (resp,
       { st with session_data :=
           fun k => if k = key then some s2 else st.session_data k })

/-! Helper lemmas about association-list lookups. -/

theorem lookup_append_of_some {β : Type} {l : List (String × β)}
    (l' : List (String × β)) {k : String} {v : β} (h : l.lookup k = some v) :
    (l ++ l').lookup k = some v := by
  simp [List.lookup_append, h]

theorem lookup_append_of_none {β : Type} {l : List (String × β)}
    (l' : List (String × β)) {k : String} (h : l.lookup k = none) :
    (l ++ l').lookup k = l'.lookup k := by
  simp [List.lookup_append, h]

theorem lookup_map_entry {β : Type} (l : List (String × β)) (id : String)
    (f : β → β) :
    (l.map (fun p => if p.1 = id then (p.1, f p.2) else p)).lookup id
      = (l.lookup id).map f := by
  induction l with
  | nil => simp
  | cons hd tl ih =>
    rcases hd with ⟨k0, v0⟩
    by_cases hk : k0 = id
    · subst hk
      simp [List.lookup_cons, ih]
    · have hb : (id == k0) = false := beq_false_of_ne fun h => hk h.symm
      simp only [List.map_cons, if_neg hk, List.lookup_cons, hb, ih]

theorem lookup_map_entry_ne {β : Type} (l : List (String × β))
    {id k : String} (f : β → β) (h : k ≠ id) :
    (l.map (fun p => if p.1 = id then (p.1, f p.2) else p)).lookup k
      = l.lookup k := by
  induction l with
  | nil => simp
  | cons hd tl ih =>
    rcases hd with ⟨k0, v0⟩
    by_cases hk : k0 = id
    · subst hk
      have hb : (k == k0) = false := beq_false_of_ne h
      simp only [List.map_cons, if_pos rfl, ite_true, List.lookup_cons, hb, ih]
    · by_cases hkk : k = k0
      · subst hkk
        simp only [List.map_cons, if_neg hk, List.lookup_cons, beq_self_eq_true]
      · have hb : (k == k0) = false := beq_false_of_ne hkk
        simp only [List.map_cons, if_neg hk, List.lookup_cons, hb, ih]

theorem lookup_map_replace {β : Type} (l : List (String × β)) (id : String)
    (b : β) (h : (l.lookup id).isSome) :
    (l.map (fun p => if p.1 = id then (p.1, b) else p)).lookup id = some b := by
  have := lookup_map_entry l id (fun _ => b)
  rcases hl : l.lookup id with _ | v
  · rw [hl] at h
    simp at h
  · rw [hl] at this
    exact this

theorem lookup_map_replace_ne {β : Type} (l : List (String × β))
    {id k : String} (b : β) (h : k ≠ id) :
    (l.map (fun p => if p.1 = id then (p.1, b) else p)).lookup k
      = l.lookup k :=
  lookup_map_entry_ne l (fun _ => b) h

theorem lookup_filter_self {β : Type} (l : List (String × β)) (id : String) :
    (l.filter (fun p => p.1 != id)).lookup id = none := by
  induction l with
  | nil => simp
  | cons hd tl ih =>
    rcases hd with ⟨k0, v0⟩
    by_cases hk : k0 = id
    · subst hk
      simp only [List.filter_cons, bne_self_eq_false, ih, if_neg Bool.false_ne_true]
    · have hb : (k0 != id) = true := bne_iff_ne.mpr hk
      have hb2 : (id == k0) = false := beq_false_of_ne fun h => hk h.symm
      simp only [List.filter_cons, hb, if_pos rfl, ite_true, List.lookup_cons, hb2, ih]

theorem lookup_filter_ne {β : Type} (l : List (String × β))
    {id k : String} (h : k ≠ id) :
    (l.filter (fun p => p.1 != id)).lookup k = l.lookup k := by
  induction l with
  | nil => simp
  | cons hd tl ih =>
    rcases hd with ⟨k0, v0⟩
    by_cases hk : k0 = id
    · subst hk
      have hb : (k == k0) = false := beq_false_of_ne h
      simp only [List.filter_cons, bne_self_eq_false, if_neg Bool.false_ne_true,
        List.lookup_cons, hb, ih]
    · have hb : (k0 != id) = true := bne_iff_ne.mpr hk
      by_cases hkk : k = k0
      · subst hkk
        simp only [List.filter_cons, hb, if_pos rfl, ite_true, List.lookup_cons,
          beq_self_eq_true]
      · have hb2 : (k == k0) = false := beq_false_of_ne hkk
        simp only [List.filter_cons, hb, if_pos rfl, ite_true, List.lookup_cons, hb2, ih]

theorem mem_of_lookup_some {β : Type} {l : List (String × β)} {k : String}
    {v : β} (h : l.lookup k = some v) : (k, v) ∈ l := by
  induction l with
  | nil => simp at h
  | cons hd tl ih =>
    rcases hd with ⟨k0, v0⟩
    by_cases hk : k = k0
    · subst hk
      simp only [List.lookup_cons, beq_self_eq_true] at h
      cases h
      exact List.mem_cons_self _ _
    · have hb : (k == k0) = false := beq_false_of_ne hk
      simp only [List.lookup_cons, hb] at h
      exact List.mem_cons_of_mem _ (ih h)

theorem filter_length_of_nodup {β : Type} {l : List (String × β)}
    {id : String} (hnd : (l.map Prod.fst).Nodup)
    (h : (l.lookup id).isSome) :
    (l.filter (fun p => p.1 != id)).length + 1 = l.length := by
  induction l with
  | nil => simp at h
  | cons hd tl ih =>
    rcases hd with ⟨k0, v0⟩
    simp only [List.map_cons, List.nodup_cons] at hnd
    by_cases hk : k0 = id
    · subst hk
      have hall : tl.filter (fun p => p.1 != k0) = tl := by
        apply List.filter_eq_self.mpr
        intro p hp
        apply bne_iff_ne.mpr
        intro hcon
        exact hnd.1 (by
          refine List.mem_map.mpr ⟨p, hp, ?_⟩
          exact hcon)
      simp only [List.filter_cons, bne_self_eq_false, if_neg Bool.false_ne_true,
        hall, List.length_cons]
    · have hb : (k0 != id) = true := bne_iff_ne.mpr hk
      have hb2 : (id == k0) = false := beq_false_of_ne fun hcon => hk hcon.symm
      simp only [List.lookup_cons, hb2] at h
      have := ih hnd.2 h
      simp only [List.filter_cons, hb, if_pos rfl, ite_true, List.length_cons]
      omega

/-! Claim theorems. -/

/-- C4: for both registries, registering an action/task whose id is already
present returns `false` and leaves the registry mapping unchanged, while
registering a fresh id returns `true` and the id afterwards appears in the
output of the list operation. -/
theorem C4_register_contract :
    (∀ (m : ActionManager) (a : Action),
        ((m.actions.lookup a.action_id).isSome →
          m.register_action a = (false, m)) ∧
        (m.actions.lookup a.action_id = none →
          (m.register_action a).1 = true ∧
          a.action_id ∈
            ((m.register_action a).2.list_actions.map ActionInfo.action_id))) ∧
    (∀ (m : TaskManager) (t : Task),
        ((m.tasks.lookup t.task_id).isSome → m.add_task t = (false, m)) ∧
        (m.tasks.lookup t.task_id = none →
          (m.add_task t).1 = true ∧
          some t.info ∈ (m.add_task t).2.list_tasks)) := by
  constructor
  · intro m a
    constructor
    · intro h
      simp [ActionManager.register_action, h]
    · intro h
      have hns : (m.actions.lookup a.action_id).isSome = false := by
        simp [h]
      refine ⟨by simp [ActionManager.register_action, hns], ?_⟩
      simp only [ActionManager.register_action, hns, Bool.false_eq_true,
        ite_false, ActionManager.list_actions, List.map_append, List.map_map,
        List.mem_append]
      right
      simp
  · intro m t
    constructor
    · intro h
      simp [TaskManager.add_task, h]
    · intro h
      have hns : (m.tasks.lookup t.task_id).isSome = false := by
        simp [h]
      refine ⟨by simp [TaskManager.add_task, hns], ?_⟩
      have htasks : (m.add_task t).2.tasks = m.tasks ++ [(t.task_id, t)] := by
        simp [TaskManager.add_task, hns]
      have hl : (m.add_task t).2.tasks.lookup t.task_id = some t := by
        rw [htasks, lookup_append_of_none _ h]
        exact List.lookup_cons_self
      refine List.mem_map.mpr ⟨(t.task_id, t), ?_, ?_⟩
      · rw [htasks]
        exact List.mem_append_right _ (List.mem_singleton.mpr rfl)
      · simp [TaskManager.get_task_status, hl]

/-- Witness for C4 at concrete inputs: re-registering the default `time`
action fails and leaves the registry unchanged, while registering a fresh
task id succeeds and makes the id listable. -/
theorem C4_register_contract_witness :
    (((ActionManager.init 0).actions.lookup "time").isSome ∧
      (ActionManager.init 0).register_action
          (defaultAction "time" "Time & Date" "" "function" ActionKind.time 3)
        = (false, ActionManager.init 0)) ∧
    ((TaskManager.mk none [] false).tasks.lookup "health_check" = none ∧
      ((TaskManager.mk none [] false).add_task
          (Task.mk "health_check" "HC" "" none true 0 none 0 "pending"
            TaskKind.healthCheck)).1 = true ∧
      some (Task.mk "health_check" "HC" "" none true 0 none 0 "pending"
            TaskKind.healthCheck).info ∈
        ((TaskManager.mk none [] false).add_task
          (Task.mk "health_check" "HC" "" none true 0 none 0 "pending"
            TaskKind.healthCheck)).2.list_tasks) := by
  have h1 : ((ActionManager.init 0).actions.lookup "time").isSome := by
    simp [ActionManager.init, List.lookup, defaultAction]
  have h2 : (TaskManager.mk none [] false).tasks.lookup "health_check"
      = none := by
    simp
  refine ⟨⟨h1, ?_⟩, h2, ?_, ?_⟩
  · exact (C4_register_contract.1 (ActionManager.init 0)
      (defaultAction "time" "Time & Date" "" "function" ActionKind.time 3)).1 h1
  · exact ((C4_register_contract.2 (TaskManager.mk none [] false)
      (Task.mk "health_check" "HC" "" none true 0 none 0 "pending"
        TaskKind.healthCheck)).2 h2).1
  · exact ((C4_register_contract.2 (TaskManager.mk none [] false)
      (Task.mk "health_check" "HC" "" none true 0 none 0 "pending"
        TaskKind.healthCheck)).2 h2).2

/-- C5: for both registries, unregistering an absent id returns `false` and
leaves the mapping unchanged; unregistering a present id returns `true`,
removes exactly that entry (one entry fewer, every kept entry was already
present, the id no longer resolves), and the id no longer appears in the
output of the list operation.  Well-formedness (`WF`) holds for every state a
Python dict keyed by the entry's own id can be in. -/
theorem C5_unregister_contract :
    (∀ (m : ActionManager) (id : String),
        (m.actions.lookup id = none → m.unregister_action id = (false, m)) ∧
        (m.WF → (m.actions.lookup id).isSome →
          (m.unregister_action id).1 = true ∧
          (m.unregister_action id).2.actions.length + 1 = m.actions.length ∧
          (∀ p ∈ (m.unregister_action id).2.actions, p ∈ m.actions) ∧
          (m.unregister_action id).2.actions.lookup id = none ∧
          id ∉ ((m.unregister_action id).2.list_actions.map
                  ActionInfo.action_id))) ∧
    (∀ (m : TaskManager) (id : String),
        (m.tasks.lookup id = none → m.remove_task id = (false, m)) ∧
        (m.WF → (m.tasks.lookup id).isSome →
          (m.remove_task id).1 = true ∧
          (m.remove_task id).2.tasks.length + 1 = m.tasks.length ∧
          (∀ p ∈ (m.remove_task id).2.tasks, p ∈ m.tasks) ∧
          (m.remove_task id).2.tasks.lookup id = none ∧
          some id ∉ ((m.remove_task id).2.list_tasks.map
                       (Option.map TaskInfo.task_id)))) := by
  constructor
  · intro m id
    constructor
    · intro h
      simp [ActionManager.unregister_action, h]
    · intro hwf h
      have hacts : (m.unregister_action id).2.actions
          = m.actions.filter (fun p => p.1 != id) := by
        simp [ActionManager.unregister_action, h]
      refine ⟨by simp [ActionManager.unregister_action, h], ?_, ?_, ?_, ?_⟩
      · rw [hacts]
        exact filter_length_of_nodup hwf.1 h
      · intro p hp
        rw [hacts] at hp
        exact (List.mem_filter.mp hp).1
      · rw [hacts]
        exact lookup_filter_self m.actions id
      · intro hmem
        simp only [ActionManager.list_actions, List.map_map, List.mem_map] at hmem
        rcases hmem with ⟨p, hp, hid⟩
        rw [hacts] at hp
        rcases List.mem_filter.mp hp with ⟨hpm, hpne⟩
        have : p.1 = p.2.action_id := hwf.2 p hpm
        simp only [Function.comp] at hid
        rw [← this] at hid
        exact (bne_iff_ne.mp hpne) hid
  · intro m id
    constructor
    · intro h
      simp [TaskManager.remove_task, h]
    · intro hwf h
      have htasks : (m.remove_task id).2.tasks
          = m.tasks.filter (fun p => p.1 != id) := by
        simp [TaskManager.remove_task, h]
      refine ⟨by simp [TaskManager.remove_task, h], ?_, ?_, ?_, ?_⟩
      · rw [htasks]
        exact filter_length_of_nodup hwf.1 h
      · intro p hp
        rw [htasks] at hp
        exact (List.mem_filter.mp hp).1
      · rw [htasks]
        exact lookup_filter_self m.tasks id
      · intro hmem
        simp only [TaskManager.list_tasks, List.map_map, List.mem_map] at hmem
        rcases hmem with ⟨p, hp, hid⟩
        rw [htasks] at hp
        rcases List.mem_filter.mp hp with ⟨hpm, hpne⟩
        have hne : p.1 ≠ id := bne_iff_ne.mp hpne
        simp only [Function.comp, TaskManager.get_task_status] at hid
        rw [htasks, lookup_filter_ne m.tasks hne] at hid
        rcases hl : m.tasks.lookup p.1 with _ | v
        · rw [hl] at hid
          simp at hid
        · rw [hl] at hid
          have hvmem : (p.1, v) ∈ m.tasks := mem_of_lookup_some hl
          have hvid : p.1 = v.task_id := hwf.2 (p.1, v) hvmem
          simp [Task.info] at hid
          exact hne (hvid.trans hid)

/-- Witness for C5 at concrete inputs: removing the default `weather` action
succeeds and delists it; removing an absent task id fails without side
effects. -/
theorem C5_unregister_contract_witness :
    ((ActionManager.init 0).WF ∧
      ((ActionManager.init 0).actions.lookup "weather").isSome ∧
      ((ActionManager.init 0).unregister_action "weather").1 = true ∧
      "weather" ∉ (((ActionManager.init 0).unregister_action
          "weather").2.list_actions.map ActionInfo.action_id)) ∧
    ((TaskManager.mk none [] false).tasks.lookup "absent" = none ∧
      (TaskManager.mk none [] false).remove_task "absent"
        = (false, TaskManager.mk none [] false)) := by
  have hwf : (ActionManager.init 0).WF := by
    constructor
    · simp [ActionManager.init]
    · intro p hp
      simp only [ActionManager.init, List.mem_cons, List.not_mem_nil,
        or_false] at hp
      rcases hp with h | h | h | h | h <;> subst h <;> rfl
  have h : ((ActionManager.init 0).actions.lookup "weather").isSome := by
    simp [ActionManager.init, List.lookup, defaultAction]
  have h2 : (TaskManager.mk none [] false).tasks.lookup "absent" = none := by
    simp
  refine ⟨⟨hwf, h, ?_, ?_⟩, h2, ?_⟩
  · exact (((C5_unregister_contract.1 (ActionManager.init 0) "weather").2
      hwf h).1)
  · exact (((C5_unregister_contract.1 (ActionManager.init 0) "weather").2
      hwf h).2.2.2.2)
  · exact (C5_unregister_contract.2 (TaskManager.mk none [] false) "absent").1 h2

/-- C6: executing an unknown action id returns the structured error result
whose message contains the id and the text `"not found"`; the registry is
untouched.  The operation is a total function, so no exception can cross the
registry boundary. -/
theorem C6_unknown_action_error :
    ∀ (m : ActionManager) (id : String) (ps : Params) (clk : Nat)
      (net : Except String String),
      m.actions.lookup id = none →
        (m.execute id ps clk net).1.status = "error" ∧
        (m.execute id ps clk net).1.error
          = some ("Action " ++ id ++ " not found") ∧
        strHasSub ("Action " ++ id ++ " not found") id ∧
        strHasSub ("Action " ++ id ++ " not found") "not found" ∧
        (m.execute id ps clk net).2.1 = m := by
  intro m id ps clk net h
  refine ⟨?_, ?_, ?_, ?_, ?_⟩
  · simp [ActionManager.execute, h, errResult]
  · simp [ActionManager.execute, h, errResult]
  · exact ⟨"Action ".data, " not found".data, by
      simp [String.data_append, List.append_assoc]⟩
  · refine ⟨"Action ".data ++ id.data ++ " ".data, [], ?_⟩
    have hsp : (" not found" : String).data
        = (" " : String).data ++ ("not found" : String).data := by decide
    simp [String.data_append, hsp, List.append_assoc]
  · simp [ActionManager.execute, h]

/-- Witness for C6 at the spec's own scenario: executing action id
`"does_not_exist"` on the default registry. -/
theorem C6_unknown_action_error_witness :
    (ActionManager.init 0).actions.lookup "does_not_exist" = none ∧
    ((ActionManager.init 0).execute "does_not_exist" [] 0
        (Except.ok "")).1.status = "error" ∧
    strHasSub ("Action " ++ "does_not_exist" ++ " not found") "not found" := by
  have h : (ActionManager.init 0).actions.lookup "does_not_exist" = none := by
    simp [ActionManager.init, List.lookup, defaultAction]
  refine ⟨h, ?_, ?_⟩
  · exact (C6_unknown_action_error (ActionManager.init 0) "does_not_exist"
      [] 0 (Except.ok "") h).1
  · exact (C6_unknown_action_error (ActionManager.init 0) "does_not_exist"
      [] 0 (Except.ok "") h).2.2.2.1

/-- C3: `handle_message` is a total function into `String` (no fault reaches
the caller); a fault raised in the agent-processing step (`Except.error e`)
comes back as the fixed apology text followed by the rendered fault, and a
normal reply comes back unchanged. -/
theorem C3_handle_message_catches :
    ∀ (st : Orchestrator) (message user_id chat_id : String),
      (∀ e, (st.handle_message message user_id chat_id (Except.error e)).1
              = apologyMsg ++ e) ∧
      (∀ r, (st.handle_message message user_id chat_id (Except.ok r)).1
              = r) := by
  intro st message user_id chat_id
  constructor
  · intro e
    simp [Orchestrator.handle_message]
  · intro r
    simp [Orchestrator.handle_message]

/-- C7: each `handle_message` call bumps the session record of the
`user_id`/`chat_id` pair by exactly one (creating the record lazily with
count 0 on the first call) and preserves the `created_at` value of an
existing record, whether or not the agent step faults. -/
theorem C7_session_bookkeeping :
    ∀ (st : Orchestrator) (message user_id chat_id : String)
      (ar : Except String String),
      match st.session_data (user_id ++ "_" ++ chat_id) with
      | none =>
          ((st.handle_message message user_id chat_id ar).2.session_data
              (user_id ++ "_" ++ chat_id)).map Session.message_count
            = some 1 ∧
          ((st.handle_message message user_id chat_id ar).2.session_data
              (user_id ++ "_" ++ chat_id)).map Session.created_at
            = some "now"
      | some s =>
          ((st.handle_message message user_id chat_id ar).2.session_data
              (user_id ++ "_" ++ chat_id)).map Session.message_count
            = some (s.message_count + 1) ∧
          ((st.handle_message message user_id chat_id ar).2.session_data
              (user_id ++ "_" ++ chat_id)).map Session.created_at
            = some s.created_at := by
  intro st message user_id chat_id ar
  rcases h : st.session_data (user_id ++ "_" ++ chat_id) with _ | s
  · cases ar <;> simp [Orchestrator.handle_message, h]
  · cases ar <;> simp [Orchestrator.handle_message, h]

/-- After `stop`, the orchestrator is never in the running state
(its own flag is cleared before the components are stopped, whatever the
listener teardown does). -/
theorem stop_clears_running (st : Orchestrator) (tgNet : Except String Unit) :
    (st.stop tgNet).is_running = false := by
  unfold Orchestrator.stop
  by_cases h : st.is_running = false
  · simp [h]
  · rcases htg : st.telegram with _ | tg <;>
      rcases htm : st.task_manager with _ | tm <;>
      simp [h, htg, htm]

/-- C9: `start` on a running orchestrator is a no-op that starts nothing;
`stop` on a non-running orchestrator changes nothing, `stop` is idempotent,
and `stop` leaves alone any component slot that was never constructed —
for every outcome of the listener's external startup/teardown calls. -/
theorem C9_lifecycle_idempotence :
    (∀ (st : Orchestrator) (hasApiKey : Bool) (botToken : Option String)
        (clk : Nat) (tgNet : Except String Unit),
        st.is_running = true →
          st.start hasApiKey botToken clk tgNet = (Except.ok (), st)) ∧
    (∀ (st : Orchestrator) (tgNet : Except String Unit),
        st.is_running = false → st.stop tgNet = st) ∧
    (∀ (st : Orchestrator) (n1 n2 : Except String Unit),
        (st.stop n1).stop n2 = st.stop n1) ∧
    (∀ (st : Orchestrator) (tgNet : Except String Unit),
        st.telegram = none → (st.stop tgNet).telegram = none) ∧
    (∀ (st : Orchestrator) (tgNet : Except String Unit),
        st.task_manager = none → (st.stop tgNet).task_manager = none) := by
  have hnr : ∀ (st : Orchestrator) (tgNet : Except String Unit),
      st.is_running = false → st.stop tgNet = st := by
    intro st tgNet h
    simp [Orchestrator.stop, h]
  refine ⟨?_, hnr, ?_, ?_, ?_⟩
  · intro st hasApiKey botToken clk tgNet h
    simp [Orchestrator.start, h]
  · intro st n1 n2
    exact hnr (st.stop n1) n2 (stop_clears_running st n1)
  · intro st tgNet h
    by_cases hr : st.is_running = false
    · rw [hnr st tgNet hr]
      exact h
    · unfold Orchestrator.stop
      rcases htm : st.task_manager with _ | tm <;> simp [hr, h, htm]
  · intro st tgNet h
    by_cases hr : st.is_running = false
    · rw [hnr st tgNet hr]
      exact h
    · unfold Orchestrator.stop
      rcases htg : st.telegram with _ | tg <;> simp [hr, h, htg]

/-- A freshly constructed orchestrator: `Orchestrator.__init__` leaves every
component slot `None`, the running flag clear, and the session dict empty. -/
def orchFresh : Orchestrator :=
  { agent := false, telegram := none, task_manager := none,
    action_manager := none, is_running := false,
    session_data := fun _ => none }

/-- An orchestrator whose running flag is set. -/
def orchRunning : Orchestrator := { orchFresh with is_running := true }

/-- Witness for C9 at concrete states: a running orchestrator's `start` is a
no-op (even when the listener startup would fail), and `stop` on a fresh,
never-initialized orchestrator changes nothing and touches no absent
component. -/
theorem C9_lifecycle_idempotence_witness :
    (orchRunning.is_running = true ∧
      orchRunning.start true (some "tok") 0 (Except.error "net down")
        = (Except.ok (), orchRunning)) ∧
    (orchFresh.is_running = false ∧
      orchFresh.stop (Except.ok ()) = orchFresh) ∧
    (orchFresh.telegram = none ∧
      (orchFresh.stop (Except.error "net down")).telegram = none) ∧
    (orchFresh.task_manager = none ∧
      (orchFresh.stop (Except.ok ())).task_manager = none) := by
  refine ⟨⟨rfl, ?_⟩, ⟨rfl, ?_⟩, ⟨rfl, ?_⟩, ⟨rfl, ?_⟩⟩
  · exact C9_lifecycle_idempotence.1 orchRunning true (some "tok") 0
      (Except.error "net down") rfl
  · exact C9_lifecycle_idempotence.2.1 orchFresh (Except.ok ()) rfl
  · exact C9_lifecycle_idempotence.2.2.2.1 orchFresh
      (Except.error "net down") rfl
  · exact C9_lifecycle_idempotence.2.2.2.2 orchFresh (Except.ok ()) rfl

/-- Every dispatch of `action.execute` bumps the execution counter by
exactly one (every variant first runs the base-class `execute`). -/
theorem Action.execute_count (a : Action) (ps : Params) (clk : Nat)
    (net : Except String String) :
    (a.execute ps clk net).2.1.execution_count = a.execution_count + 1 := rfl

/-- Every dispatch of `action.execute` stamps `last_execution` with the
clock value read at the start of the call. -/
theorem Action.execute_last (a : Action) (ps : Params) (clk : Nat)
    (net : Except String String) :
    (a.execute ps clk net).2.1.last_execution = some clk := rfl

/-- The operations of the action registry, as a step alphabet. -/
inductive AMOp where
  | register (a : Action)
  | unregister (id : String)
  | exec (id : String) (ps : Params) (clk : Nat) (net : Except String String)

/-- The registry state after one operation (the read-only operations
`list_actions` / `get_action_info` do not change the state). -/
def AMOp.apply (op : AMOp) (m : ActionManager) : ActionManager :=
  match op with
  | AMOp.register a => (m.register_action a).2
  | AMOp.unregister id => (m.unregister_action id).2
  | AMOp.exec id ps clk net => (m.execute id ps clk net).2.1

/-- C8: a call of an action's `execute` bumps that action's
`execution_count` by exactly one and stamps `last_execution` with a time no
earlier than the call's start; and across every registry operation, the
counter of an action that stays registered never decreases. -/
theorem C8_counter_monotone :
    (∀ (a : Action) (ps : Params) (clk : Nat) (net : Except String String),
        (a.execute ps clk net).2.1.execution_count = a.execution_count + 1 ∧
        ∃ t, (a.execute ps clk net).2.1.last_execution = some t ∧ clk ≤ t) ∧
    (∀ (op : AMOp) (m : ActionManager) (id : String) (a a' : Action),
        m.actions.lookup id = some a →
        (op.apply m).actions.lookup id = some a' →
        a.execution_count ≤ a'.execution_count) := by
  constructor
  · intro a ps clk net
    exact ⟨Action.execute_count a ps clk net,
      ⟨clk, Action.execute_last a ps clk net, le_rfl⟩⟩
  · intro op m id a a' h h'
    cases op with
    | register a0 =>
        by_cases hs : (m.actions.lookup a0.action_id).isSome
        · simp only [AMOp.apply, ActionManager.register_action, hs,
            ite_true] at h'
          rw [h] at h'
          cases h'
          exact le_rfl
        · have hs2 : (m.actions.lookup a0.action_id).isSome = false := by
            cases hbb : (m.actions.lookup a0.action_id).isSome
            · rfl
            · exact absurd hbb hs
          simp only [AMOp.apply, ActionManager.register_action, hs2,
            Bool.false_eq_true, ite_false] at h'
          rw [lookup_append_of_some [(a0.action_id, a0)] h] at h'
          cases h'
          exact le_rfl
    | unregister id0 =>
        by_cases hs : (m.actions.lookup id0).isSome
        · simp only [AMOp.apply, ActionManager.unregister_action, hs,
            ite_true] at h'
          by_cases hid : id = id0
          · subst hid
            rw [lookup_filter_self] at h'
            cases h'
          · rw [lookup_filter_ne _ hid, h] at h'
            cases h'
            exact le_rfl
        · have hs2 : (m.actions.lookup id0).isSome = false := by
            cases hbb : (m.actions.lookup id0).isSome
            · rfl
            · exact absurd hbb hs
          simp only [AMOp.apply, ActionManager.unregister_action, hs2,
            Bool.false_eq_true, ite_false] at h'
          rw [h] at h'
          cases h'
          exact le_rfl
    | exec id0 ps clk net =>
        rcases hl : m.actions.lookup id0 with _ | a0
        · simp only [AMOp.apply, ActionManager.execute, hl] at h'
          rw [h] at h'
          cases h'
          exact le_rfl
        · by_cases he : a0.enabled = false
          · simp only [AMOp.apply, ActionManager.execute, hl, he,
              ite_true] at h'
            rw [h] at h'
            cases h'
            exact le_rfl
          · have he2 : a0.enabled = true := by
              cases hb : a0.enabled
              · exact absurd hb he
              · rfl
            rcases hE : a0.execute ps clk net with ⟨r, a1, c1⟩
            have ha1 : (AMOp.apply (AMOp.exec id0 ps clk net) m).actions
                = m.actions.map
                    (fun p => if p.1 = id0 then (p.1, a1) else p) := by
              simp only [AMOp.apply, ActionManager.execute, hl, he2,
                Bool.true_eq_false, ite_false, hE]
              cases r <;> rfl
            by_cases hid : id = id0
            · subst hid
              rw [ha1,
                lookup_map_replace m.actions id a1 (by simp [hl])] at h'
              injection h' with hh
              have hc : a1.execution_count = a0.execution_count + 1 := by
                have hcc := Action.execute_count a0 ps clk net
                rw [hE] at hcc
                exact hcc
              have haa : a0 = a := by
                rw [hl] at h
                injection h
              rw [← hh, ← haa]
              omega
            · rw [ha1, lookup_map_replace_ne m.actions a1 hid, h] at h'
              cases h'
              exact le_rfl

/-- Witness for C8 at concrete inputs: executing the default `time` action
takes its counter from 0 to 1, a non-decrease. -/
theorem C8_counter_monotone_witness :
    (ActionManager.init 0).actions.lookup "time"
        = some (defaultAction "time" "Time & Date"
            "Get current time and date information" "function"
            ActionKind.time 0) ∧
    ((AMOp.exec "time" [] 7 (Except.ok "x")).apply
          (ActionManager.init 0)).actions.lookup "time"
        = some { defaultAction "time" "Time & Date"
              "Get current time and date information" "function"
              ActionKind.time 0 with
            execution_count := 1, last_execution := some 7 } ∧
    (defaultAction "time" "Time & Date"
        "Get current time and date information" "function"
        ActionKind.time 0).execution_count ≤
      ({ defaultAction "time" "Time & Date"
            "Get current time and date information" "function"
            ActionKind.time 0 with
          execution_count := 1, last_execution := some 7 } :
        Action).execution_count := by
  have h1 : (ActionManager.init 0).actions.lookup "time"
      = some (defaultAction "time" "Time & Date"
          "Get current time and date information" "function"
          ActionKind.time 0) := by
    simp [ActionManager.init, List.lookup]
  have h2 : ((AMOp.exec "time" [] 7 (Except.ok "x")).apply
        (ActionManager.init 0)).actions.lookup "time"
      = some { defaultAction "time" "Time & Date"
            "Get current time and date information" "function"
            ActionKind.time 0 with
          execution_count := 1, last_execution := some 7 } := by
    simp [AMOp.apply, ActionManager.execute, ActionManager.init,
      List.lookup, defaultAction, Action.execute, Action.executeBase]
  exact ⟨h1, h2, C8_counter_monotone.2 (AMOp.exec "time" [] 7 (Except.ok "x"))
    (ActionManager.init 0) "time" _ _ h1 h2⟩

/-- C10: for the parameter-validating actions (web search, HTTP request,
weather), a call that fails validation still bumps `execution_count` and
stamps `last_execution`, because the base-class `super().execute` runs
before the validation: the counter counts attempts, not successes. -/
theorem C10_validation_still_counts :
    ∀ (a : Action) (ps : Params) (clk : Nat) (net : Except String String),
      (a.kind = ActionKind.webSearch → pget ps "query" = "" →
        (a.execute ps clk net).1
          = Except.ok (errResult a.action_id "Query parameter is required") ∧
        (a.execute ps clk net).2.1.execution_count
          = a.execution_count + 1 ∧
        (a.execute ps clk net).2.1.last_execution = some clk) ∧
      (a.kind = ActionKind.httpRequest → ps = [] →
        (a.execute ps clk net).1
          = Except.ok (errResult a.action_id "Parameters are required") ∧
        (a.execute ps clk net).2.1.execution_count
          = a.execution_count + 1 ∧
        (a.execute ps clk net).2.1.last_execution = some clk) ∧
      (a.kind = ActionKind.httpRequest → ps ≠ [] → pget ps "url" = "" →
        (a.execute ps clk net).1
          = Except.ok (errResult a.action_id "URL parameter is required") ∧
        (a.execute ps clk net).2.1.execution_count
          = a.execution_count + 1 ∧
        (a.execute ps clk net).2.1.last_execution = some clk) ∧
      (a.kind = ActionKind.weather → pget ps "location" = "" →
        (a.execute ps clk net).1
          = Except.ok (errResult a.action_id "Location parameter is required") ∧
        (a.execute ps clk net).2.1.execution_count
          = a.execution_count + 1 ∧
        (a.execute ps clk net).2.1.last_execution = some clk) := by
  intro a ps clk net
  refine ⟨?_, ?_, ?_, ?_⟩
  · intro hk hv
    refine ⟨?_, Action.execute_count a ps clk net,
      Action.execute_last a ps clk net⟩
    simp [Action.execute, Action.executeBase, hk, webSearchBody, hv]
  · intro hk hv
    refine ⟨?_, Action.execute_count a ps clk net,
      Action.execute_last a ps clk net⟩
    simp [Action.execute, Action.executeBase, hk, httpRequestBody, hv]
  · intro hk hv hurl
    refine ⟨?_, Action.execute_count a ps clk net,
      Action.execute_last a ps clk net⟩
    simp [Action.execute, Action.executeBase, hk, httpRequestBody, hv, hurl]
  · intro hk hv
    refine ⟨?_, Action.execute_count a ps clk net,
      Action.execute_last a ps clk net⟩
    simp [Action.execute, Action.executeBase, hk, weatherBody, hv]

/-- Witness for C10 at concrete inputs: the default `web_search` action with
no query, and the default `http_request` action with empty and with
url-less parameters, and the default `weather` action with no location. -/
theorem C10_validation_still_counts_witness :
    ((defaultAction "web_search" "Web Search" "" "api"
          ActionKind.webSearch 0).kind = ActionKind.webSearch ∧
      pget [] "query" = "" ∧
      ((defaultAction "web_search" "Web Search" "" "api"
            ActionKind.webSearch 0).execute [] 4
          (Except.ok "ignored")).2.1.execution_count = 1) ∧
    ((defaultAction "http_request" "HTTP Request" "" "api"
          ActionKind.httpRequest 0).kind = ActionKind.httpRequest ∧
      ([("method", "GET")] : Params) ≠ [] ∧
      pget [("method", "GET")] "url" = "" ∧
      ((defaultAction "http_request" "HTTP Request" "" "api"
            ActionKind.httpRequest 0).execute [("method", "GET")] 4
          (Except.ok "ignored")).1
        = Except.ok (errResult "http_request" "URL parameter is required")) ∧
    ((defaultAction "weather" "Weather Info" "" "api"
          ActionKind.weather 0).kind = ActionKind.weather ∧
      pget [] "location" = "" ∧
      ((defaultAction "weather" "Weather Info" "" "api"
            ActionKind.weather 0).execute [] 4
          (Except.ok "ignored")).2.1.last_execution = some 4) := by
  refine ⟨⟨rfl, rfl, ?_⟩, ⟨rfl, ?_, ?_, ?_⟩, rfl, rfl, ?_⟩
  · exact ((C10_validation_still_counts
      (defaultAction "web_search" "Web Search" "" "api"
        ActionKind.webSearch 0) [] 4 (Except.ok "ignored")).1
      rfl rfl).2.1
  · simp
  · simp [pget, List.lookup]
  · exact ((C10_validation_still_counts
      (defaultAction "http_request" "HTTP Request" "" "api"
        ActionKind.httpRequest 0) [("method", "GET")] 4
      (Except.ok "ignored")).2.2.1
      rfl (by simp) (by simp [pget, List.lookup])).1
  · exact ((C10_validation_still_counts
      (defaultAction "weather" "Weather Info" "" "api"
        ActionKind.weather 0) [] 4 (Except.ok "ignored")).2.2.2
      rfl rfl).2.2

/-- The `HealthCheckTask()` object as constructed at time 0. -/
def healthCheckTask : Task :=
  { task_id := "health_check", name := "System Health Check",
    description := "Performs periodic health checks on all system components",
    schedule := some "*/5 * * * *", enabled := true, created_at := 0,
    last_run := none, run_count := 0, status := "pending",
    kind := TaskKind.healthCheck }

/-- A task manager holding the health-check task after `disable_task`
cleared its enabled flag. -/
def tmDisabled : TaskManager :=
  { orchestrator := none, is_running := false,
    tasks := [("health_check", { healthCheckTask with enabled := false })] }

/-- C1 counterexample: with task `"health_check"` disabled, the manual
`execute_task` does NOT perform the execution and does NOT return a success
result: it returns `none` (Python `None`) and the task's `run_count` stays
0, refuting the claimed bypass of the enabled flag. -/
theorem C1_counterexample_disabled_blocks :
    (tmDisabled.execute_task "health_check" 5).1 = none ∧
    ((tmDisabled.execute_task "health_check" 5).2.1.tasks.lookup
        "health_check").map Task.run_count = some 0 := by
  constructor <;>
    simp [tmDisabled, TaskManager.execute_task, healthCheckTask, List.lookup]

/-- C1 amended: `execute_task` on a disabled task performs no execution at
all — it returns `None` and leaves the manager state and clock unchanged
(`task_manager.py` lines 122-124); the enabled flag gates manual execution
just as it would gate the (unimplemented) scheduled dispatch. -/
theorem C1_amended_disabled_not_executed :
    ∀ (m : TaskManager) (id : String) (clk : Nat) (t : Task),
      m.tasks.lookup id = some t → t.enabled = false →
        m.execute_task id clk = (none, m, clk) := by
  intro m id clk t h he
  simp [TaskManager.execute_task, h, he]

/-- Witness for the amended C1 at the disabled health-check fixture. -/
theorem C1_amended_witness :
    tmDisabled.tasks.lookup "health_check"
        = some { healthCheckTask with enabled := false } ∧
    ({ healthCheckTask with enabled := false } : Task).enabled = false ∧
    tmDisabled.execute_task "health_check" 5 = (none, tmDisabled, 5) := by
  have h : tmDisabled.tasks.lookup "health_check"
      = some { healthCheckTask with enabled := false } := by
    simp [tmDisabled]
  exact ⟨h, rfl,
    C1_amended_disabled_not_executed tmDisabled "health_check" 5 _ h rfl⟩

/-- C2 counterexample: for the task manager, executing a disabled task does
not return a structured `{status: error}` result — it returns the absent
value `None`, refuting the claim's task-manager half. -/
theorem C2_counterexample_task_absent_value :
    (tmDisabled.execute_task "health_check" 0).1 = none := by
  simp [tmDisabled, TaskManager.execute_task, healthCheckTask, List.lookup]

/-- C2 amended: executing a disabled ACTION returns the structured
`{status: "error", error: "... is disabled"}` result, and an action whose
flag is true again executes (bumping its counter); for the TASK manager a
disabled task yields `None` (not a structured error), and after
`enable_task` a subsequent `execute_task` proceeds to the task's own
execution (some result, `run_count` bumped). -/
theorem C2_amended_disabled_gating :
    (∀ (m : ActionManager) (id : String) (ps : Params) (clk : Nat)
        (net : Except String String) (a : Action),
        m.actions.lookup id = some a → a.enabled = false →
          (m.execute id ps clk net).1
            = errResult id ("Action " ++ id ++ " is disabled")) ∧
    (∀ (m : ActionManager) (id : String) (ps : Params) (clk : Nat)
        (net : Except String String) (a : Action),
        m.actions.lookup id = some a → a.enabled = true →
          ((m.execute id ps clk net).2.1.actions.lookup id).map
              Action.execution_count = some (a.execution_count + 1)) ∧
    (∀ (m : TaskManager) (id : String) (clk : Nat) (t : Task),
        m.tasks.lookup id = some t → t.enabled = false →
          (m.execute_task id clk).1 = none) ∧
    (∀ (m : TaskManager) (id : String) (clk : Nat) (t : Task),
        m.tasks.lookup id = some t →
          (((m.enable_task id).2.execute_task id clk).1).isSome ∧
          ((((m.enable_task id).2.execute_task id clk).2.1.tasks.lookup
              id).map Task.run_count) = some (t.run_count + 1)) := by
  refine ⟨?_, ?_, ?_, ?_⟩
  · intro m id ps clk net a h he
    simp [ActionManager.execute, h, he]
  · intro m id ps clk net a h he
    have he2 : (a.enabled = false) = False := by simp [he]
    rcases hE : a.execute ps clk net with ⟨r, a1, c1⟩
    have hacts : (m.execute id ps clk net).2.1.actions
        = m.actions.map (fun p => if p.1 = id then (p.1, a1) else p) := by
      simp only [ActionManager.execute, h, he2, ite_false, hE]
      cases r <;> rfl
    rw [hacts, lookup_map_replace m.actions id a1 (by simp [h])]
    have hc : a1.execution_count = a.execution_count + 1 := by
      have hcc := Action.execute_count a ps clk net
      rw [hE] at hcc
      exact hcc
    simp [hc]
  · intro m id clk t h he
    simp [TaskManager.execute_task, h, he]
  · intro m id clk t h
    have hs : (m.tasks.lookup id).isSome := by simp [h]
    have hm1 : (m.enable_task id).2.tasks
        = m.tasks.map (fun p =>
            if p.1 = id then (p.1, { p.2 with enabled := true }) else p) := by
      simp [TaskManager.enable_task, hs]
    have h1 : (m.enable_task id).2.tasks.lookup id
        = some { t with enabled := true } := by
      rw [hm1, lookup_map_entry m.tasks id
        (fun u => { u with enabled := true }), h]
      rfl
    constructor
    · simp [TaskManager.execute_task, h1]
    · rcases hT : Task.execute { t with enabled := true }
          ((m.enable_task id).2.orchestrator) clk with ⟨r, t1, c1⟩
      have htasks : ((m.enable_task id).2.execute_task id clk).2.1.tasks
          = (m.enable_task id).2.tasks.map
              (fun p => if p.1 = id then (p.1, t1) else p) := by
        simp only [TaskManager.execute_task, h1, Bool.true_eq_false,
          ite_false, hT]
      rw [htasks, lookup_map_replace (m.enable_task id).2.tasks id t1
        (by simp [h1])]
      have hrc : t1.run_count = t.run_count + 1 := by
        have : (Task.execute { t with enabled := true }
            ((m.enable_task id).2.orchestrator) clk).2.1.run_count
            = t.run_count + 1 := rfl
        rw [hT] at this
        exact this
      simp [hrc]

/-- Witness for the amended C2: the disabled health-check task yields
`None`; after `enable_task`, `execute_task` executes it and its `run_count`
becomes 1; a disabled action on the action-manager side yields the
structured disabled-error result. -/
theorem C2_amended_witness :
    (tmDisabled.tasks.lookup "health_check"
        = some { healthCheckTask with enabled := false } ∧
      (tmDisabled.execute_task "health_check" 0).1 = none ∧
      (((tmDisabled.enable_task "health_check").2.execute_task
          "health_check" 0).1).isSome ∧
      ((((tmDisabled.enable_task "health_check").2.execute_task
          "health_check" 0).2.1.tasks.lookup "health_check").map
          Task.run_count) = some 1) ∧
    ((ActionManager.mk [("web_search",
          { defaultAction "web_search" "Web Search" "" "api"
              ActionKind.webSearch 0 with enabled := false })]).execute
        "web_search" [] 0 (Except.ok "")).1
      = errResult "web_search" ("Action " ++ "web_search" ++ " is disabled") := by
  have h : tmDisabled.tasks.lookup "health_check"
      = some { healthCheckTask with enabled := false } := by
    simp [tmDisabled]
  have ha : (ActionManager.mk [("web_search",
        { defaultAction "web_search" "Web Search" "" "api"
            ActionKind.webSearch 0 with enabled := false })]).actions.lookup
        "web_search"
      = some { defaultAction "web_search" "Web Search" "" "api"
          ActionKind.webSearch 0 with enabled := false } := by
    simp
  refine ⟨⟨h, ?_, ?_, ?_⟩, ?_⟩
  · exact (C2_amended_disabled_gating.2.2.1 tmDisabled "health_check" 0 _
      h rfl)
  · exact (C2_amended_disabled_gating.2.2.2 tmDisabled "health_check" 0 _
      h).1
  · exact (C2_amended_disabled_gating.2.2.2 tmDisabled "health_check" 0 _
      h).2
  · exact (C2_amended_disabled_gating.1 _ "web_search" [] 0 (Except.ok "")
      _ ha rfl)

end AiAgent
